import Mathlib

/-!
Shallow embedding of `openraft/src/core/install_snapshot.rs`: the
receiver-side snapshot-installation pathway of a Raft node
(`handle_install_snapshot_request`, `begin_installing_snapshot`,
`continue_installing_snapshot`, `finalize_snapshot_installation`).

Asynchronous storage calls are modelled by an `Env` record that pre-decides
the outcome of each storage operation appearing in the functions; the `&mut
self` receiver is modelled by threading a `RaftCore` record; a Rust `panic`
(the `assert!` on membership) is a distinct outcome from an `Err` return.
-/

namespace InstallSnapshot

/-- Log position identifier `(term, index)`; Rust `LogId` derives its order
from the field order `term`, then `index` (lexicographic). -/
structure LogId where
  term : Nat
  index : Nat
deriving DecidableEq, Repr

/-- Rust `LogId < LogId`: lexicographic on `(term, index)`. -/
def LogId.ltb (a b : LogId) : Bool :=
  a.term < b.term || (a.term == b.term && a.index < b.index)

/-- Rust `Option<LogId> < Option<LogId>` (derived `PartialOrd`):
`None < Some _`, `Some a < Some b ↔ a < b`. -/
def oLt : Option LogId → Option LogId → Bool
  | none, none => false
  | none, some _ => true
  | some _, none => false
  | some a, some b => LogId.ltb a b

/-- Rust `LogIdOptionExt::next_index`: `None ↦ 0`, `Some l ↦ l.index + 1`. -/
def next_index : Option LogId → Nat
  | none => 0
  | some l => l.index + 1

/-- Rust `SnapshotMeta`, fields `snapshot_id` and `last_log_id`. -/
structure SnapshotMeta where
  snapshot_id : String
  last_log_id : Option LogId
deriving DecidableEq, Repr

/-- Rust `SnapshotSegmentId`, fields `id` and `offset`, used in mismatch errors. -/
structure SnapshotSegmentId where
  id : String
  offset : Nat
deriving DecidableEq, Repr

/-- Rust `InstallSnapshotRequest`; `data` is the chunk's byte sequence. -/
structure InstallSnapshotRequest where
  term : Nat
  leader_id : Nat
  meta : SnapshotMeta
  offset : Nat
  data : List Nat
  done : Bool
deriving DecidableEq, Repr

/-- Rust `InstallSnapshotResponse`, fields `term` and `last_applied`. -/
structure InstallSnapshotResponse where
  term : Nat
  last_applied : Option LogId
deriving DecidableEq, Repr

/-- Rust `core::State`; only `is_follower`/`is_learner` matter here. -/
inductive State where
  | follower
  | learner
  | candidate
  | leader
  | shutdown
deriving DecidableEq, Repr

/-- Rust `SnapshotState`: the single-slot snapshot activity. A sink
(`Box<S::SnapshotData>`) is modelled as an opaque `Nat` handle. -/
inductive SnapshotState where
  | snapshotting (handle : Nat)
  | streaming (offset : Nat) (id : String) (snapshot : Nat)
deriving DecidableEq, Repr

/-- The verb recorded in a `StorageIOError` wrap. -/
inductive ErrorVerb where
  | write
  | seek
  | read
  | delete
  | install
  | purge
  | readMembership
  | hardState
deriving DecidableEq, Repr

/-- A storage-level error: the wrapping verb plus an opaque io-error code. -/
structure StorageErr where
  verb : ErrorVerb
  code : Nat
deriving DecidableEq, Repr

/-- Rust `InstallSnapshotError`: a protocol mismatch or a storage error. -/
inductive InstallSnapshotError where
  | snapshotMismatch (expect got : SnapshotSegmentId)
  | storageError (e : StorageErr)
deriving DecidableEq, Repr

/-- Outcome of `finalize_snapshot_installation`: `Ok(())`, `Err(StorageError)`
or a Rust `panic` (the failed `assert!`), which is not an `Err` return. -/
inductive FinalizeRes where
  | ok
  | err (e : StorageErr)
  | panicked
deriving DecidableEq, Repr

/-- Outcome of the request handler, with `panicked` distinct from `err`. -/
inductive HandlerRes where
  | ok (resp : InstallSnapshotResponse)
  | err (e : InstallSnapshotError)
  | panicked
deriving DecidableEq, Repr

/-- The mutable node state (`RaftCore` fields touched by this file), plus the
durable log (a list of log ids; an entry is identified by its `LogId`) and the
storage-side record of the last installed snapshot metadata. -/
structure RaftCore where
  current_term : Nat
  voted_for : Option Nat
  current_leader : Option Nat
  target_state : State
  last_log_id : Option LogId
  committed : Option LogId
  last_applied : Option LogId
  snapshot_last_log_id : Option LogId
  membership : Nat
  snapshot_state : Option SnapshotState
  log : List LogId
  installed_meta : Option SnapshotMeta
  election_timeout_updates : Nat
  metrics_reports : Nat
deriving DecidableEq, Repr

/-- Pre-decided outcomes of the storage operations one handler invocation may
perform: `none` means the io call succeeds, `some code` that it fails with
that io-error code; `Except`-valued fields carry the operation's result. -/
structure Env where
  begin_receiving : Except StorageErr Nat
  write_io : Option Nat
  seek_io : Option Nat
  shutdown_io : Option Nat
  try_get_log_entries_err : Option StorageErr
  delete_err : Option StorageErr
  install_res : Except StorageErr (Option LogId)
  purge_err : Option StorageErr
  membership_res : Except StorageErr (Option Nat)
  save_hard_state_err : Option StorageErr
deriving Repr

/-- Modelled from the spec: `StorageHelper::get_log_id(i)` (not under `src/`)
"determine the log id immediately after the current `last_applied`"; returns
the log id of the entry at index `i` when one exists ("If no such log id can
be determined (log is empty at that point), skip deletion" — modelled as
`none`). -/
def get_log_id (log : List LogId) (i : Nat) : Option LogId :=
  log.find? (fun ent => ent.index == i)

/-- The `matches` computation of `finalize_snapshot_installation`
(lines 243–251): look up the entry at `last.index` via
`try_get_log_entries(idx..=idx)` and compare `Some(ent.log_id)` with
`req.meta.last_log_id`; a missing entry is unmatched. -/
def conflict_matches (log : List LogId) (last : LogId) : Bool :=
  match log.find? (fun ent => ent.index == last.index) with
  | some ent => some ent == some last
  | none => false

/-- The conflict-detection/deletion block of `finalize_snapshot_installation`
(lines 241–265), for `req.meta.last_log_id = Some last`: on mismatch, fetch
the log id after `last_applied` and delete from it onward (the deletion of
`delete_conflict_logs_since` is modelled from the spec: "delete every local
log entry from there onward", as entries are not under `src/`); a failed
`get_log_id` is ignored. -/
def detect_conflict_and_delete (env : Env) (core : RaftCore) (last : LogId) :
    Except StorageErr RaftCore :=
  match env.try_get_log_entries_err with
  | some e => .error e
  | none =>
    if conflict_matches core.log last then
      .ok core
    else
      match get_log_id core.log (next_index core.last_applied) with
      | some logId =>
        match env.delete_err with
        | some e => .error e
        | none =>
          .ok { core with log := core.log.filter (fun ent => ent.index < logId.index) }
      | none => .ok core

/-- Lines 283–290 of `finalize_snapshot_installation`: set `last_applied`
to the position reported by the install, then raise `committed` and
`last_log_id` to it when they are behind. -/
def advance_markers (core : RaftCore) (changes : Option LogId) : RaftCore :=
  let core4 := { core with last_applied := changes }
  let core5 :=
    if oLt core4.committed core4.last_applied then
      { core4 with committed := core4.last_applied }
    else core4
  if oLt core5.last_log_id core5.last_applied then
    { core5 with last_log_id := core5.last_applied }
  else core5

/-- Function `finalize_snapshot_installation` (lines 203–306): shutdown the sink,
apply the staleness guard (`req.meta.last_log_id < self.last_applied`,
line 232), run conflict detection, install, purge applied logs (modelled from
the spec for the entry removal of `purge_applied_logs`, which is not under
`src/`), advance `last_applied`/`committed`/`last_log_id`, re-read and assert
membership, record the snapshot position and report metrics. -/
def finalize_snapshot_installation (env : Env) (core : RaftCore)
    (req : InstallSnapshotRequest) : FinalizeRes × RaftCore :=
  match env.shutdown_io with
  | some e => (.err ⟨.write, e⟩, core)
  | none =>
    if oLt req.meta.last_log_id core.last_applied then
      (.ok, core)
    else
      match (match req.meta.last_log_id with
             | some last => detect_conflict_and_delete env core last
             | none => .ok core : Except StorageErr RaftCore) with
      | .error e => (.err e, core)
      | .ok core1 =>
        match env.install_res with
        | .error e => (.err e, core1)
        | .ok changes =>
          let core2 := { core1 with installed_meta := some req.meta }
          match (match changes with
                 | some last =>
                   match env.purge_err with
                   | some e => .error e
                   | none =>
                     .ok { core2 with
                       log := core2.log.filter (fun ent => last.index < ent.index) }
                 | none => .ok core2 : Except StorageErr RaftCore) with
          | .error e => (.err e, core2)
          | .ok core3 =>
            let core6 := advance_markers core3 changes
            match env.membership_res with
            | .error e => (.err e, core6)
            | .ok none => (.panicked, core6)
            | .ok (some m) =>
              (.ok, { core6 with
                membership := m,
                snapshot_last_log_id := core6.last_applied,
                metrics_reports := core6.metrics_reports + 1 })

/-- Function `begin_installing_snapshot` (lines 107–153): require offset 0, open a new
sink, write the chunk; finalize when `done`, else store `Streaming`. -/
def begin_installing_snapshot (env : Env) (core : RaftCore)
    (req : InstallSnapshotRequest) : HandlerRes × RaftCore :=
  let id := req.meta.snapshot_id
  if req.offset > 0 then
    (.err (.snapshotMismatch ⟨id, 0⟩ ⟨id, req.offset⟩), core)
  else
    match env.begin_receiving with
    | .error e => (.err (.storageError e), core)
    | .ok snapshot =>
      match env.write_io with
      | some e => (.err (.storageError ⟨.write, e⟩), core)
      | none =>
        if req.done then
          match finalize_snapshot_installation env core req with
          | (.ok, core1) =>
            (.ok ⟨core1.current_term, core1.last_applied⟩, core1)
          | (.err e, core1) => (.err (.storageError e), core1)
          | (.panicked, core1) => (.panicked, core1)
        else
          let core1 := { core with
            snapshot_state := some (.streaming req.data.length id snapshot) }
          (.ok ⟨core1.current_term, none⟩, core1)

/-- Function `continue_installing_snapshot` (lines 156–197): seek when the requested
offset differs from the tracked one (restoring `Streaming` on failure), write
the chunk (restoring `Streaming` on failure), advance the offset; finalize
when `done`, else re-store `Streaming`; reply with the node's
`current_term` and `last_applied`. -/
def continue_installing_snapshot (env : Env) (core : RaftCore)
    (req : InstallSnapshotRequest) (offset0 : Nat) (snapshot : Nat) :
    HandlerRes × RaftCore :=
  let id := req.meta.snapshot_id
  match (if req.offset == offset0 then none else env.seek_io) with
  | some e =>
    (.err (.storageError ⟨.seek, e⟩),
     { core with snapshot_state := some (.streaming offset0 id snapshot) })
  | none =>
    let offset1 := if req.offset == offset0 then offset0 else req.offset
    match env.write_io with
    | some e =>
      (.err (.storageError ⟨.write, e⟩),
       { core with snapshot_state := some (.streaming offset1 id snapshot) })
    | none =>
      let offset2 := offset1 + req.data.length
      if req.done then
        match finalize_snapshot_installation env core req with
        | (.ok, core1) =>
          (.ok ⟨core1.current_term, core1.last_applied⟩, core1)
        | (.err e, core1) => (.err (.storageError e), core1)
        | (.panicked, core1) => (.panicked, core1)
      else
        let core1 := { core with
          snapshot_state := some (.streaming offset2 id snapshot) }
        (.ok ⟨core1.current_term, core1.last_applied⟩, core1)

/-- Lines 48–72 of `handle_install_snapshot_request`: refresh the election
timeout, adopt a higher term (persisting hard state, whose failure
propagates), adopt the new leader, force Follower when neither follower nor
learner, and report metrics when term or leader changed. Returns the error
of `save_hard_state` (if any) together with the updated state. -/
def accept_leader_sync (env : Env) (core : RaftCore)
    (req : InstallSnapshotRequest) : Option StorageErr × RaftCore :=
  let core := { core with
    election_timeout_updates := core.election_timeout_updates + 1 }
  let termChanged := core.current_term != req.term
  let core :=
    if termChanged then { core with current_term := req.term, voted_for := none }
    else core
  match (if termChanged then env.save_hard_state_err else none) with
  | some e => (some e, core)
  | none =>
    let leaderChanged := core.current_leader != some req.leader_id
    let core :=
      if leaderChanged then { core with current_leader := some req.leader_id }
      else core
    let core :=
      if core.target_state ≠ .follower ∧ core.target_state ≠ .learner then
        { core with target_state := .follower }
      else core
    let core :=
      if termChanged || leaderChanged then
        { core with metrics_reports := core.metrics_reports + 1 }
      else core
    (none, core)

/-- Function `handle_install_snapshot_request` (lines 36–104): stale-term early
return; term/leader/role sync; then dispatch on the taken `snapshot_state`
(`take()` leaves the slot empty unless a branch re-stores it). -/
def handle_install_snapshot_request (env : Env) (core : RaftCore)
    (req : InstallSnapshotRequest) : HandlerRes × RaftCore :=
  if req.term < core.current_term then
    (.ok ⟨core.current_term, none⟩, core)
  else
    match accept_leader_sync env core req with
    | (some e, core) => (.err (.storageError e), core)
    | (none, core) =>
      match core.snapshot_state with
      | none => begin_installing_snapshot env core req
      | some (.snapshotting _) =>
        begin_installing_snapshot env { core with snapshot_state := none } req
      | some (.streaming offset id snapshot) =>
        let core := { core with snapshot_state := none }
        if req.meta.snapshot_id == id then
          continue_installing_snapshot env core req offset snapshot
        else if req.offset == 0 then
          begin_installing_snapshot env core req
        else
          (.err (.snapshotMismatch ⟨id, offset⟩ ⟨req.meta.snapshot_id, req.offset⟩),
           core)

/-- Environment in which every storage operation succeeds; the atomic
install reports applied position `(1, 5)` and the membership read returns
configuration `7`. -/
def envOk : Env where
  begin_receiving := .ok 42
  write_io := none
  seek_io := none
  shutdown_io := none
  try_get_log_entries_err := none
  delete_err := none
  install_res := .ok (some ⟨1, 5⟩)
  purge_err := none
  membership_res := .ok (some 7)
  save_hard_state_err := none

/-- A follower at term 2 with `last_applied = committed = last_log_id =
(1, 5)`, empty log, no snapshot activity. -/
def core0 : RaftCore where
  current_term := 2
  voted_for := none
  current_leader := some 1
  target_state := .follower
  last_log_id := some ⟨1, 5⟩
  committed := some ⟨1, 5⟩
  last_applied := some ⟨1, 5⟩
  snapshot_last_log_id := none
  membership := 0
  snapshot_state := none
  log := []
  installed_meta := none
  election_timeout_updates := 0
  metrics_reports := 0

/-- State `core0` while mid-receive of snapshot `"s1"` at offset 10, sink 3. -/
def coreStreaming : RaftCore :=
  { core0 with snapshot_state := some (.streaming 10 "s1" 3) }

/-- State `core0` with `committed = (1,8)` ahead of `last_applied = (1,5)` and a
local log `[(1,6), (1,7), (1,8), (4,10)]` whose entry at index 10 conflicts
with a leader snapshot at `(3,10)`. -/
def coreC6 : RaftCore :=
  { core0 with
    committed := some ⟨1, 8⟩,
    last_log_id := some ⟨4, 10⟩,
    log := [⟨1, 6⟩, ⟨1, 7⟩, ⟨1, 8⟩, ⟨4, 10⟩] }

/-- A final (`done`) request whose snapshot position `(1,5)` equals
`core0.last_applied`. -/
def reqEqual : InstallSnapshotRequest where
  term := 2
  leader_id := 1
  meta := { snapshot_id := "s1", last_log_id := some ⟨1, 5⟩ }
  offset := 0
  data := [9, 9]
  done := true

/-- A chunk for snapshot `"s2"` at nonzero offset 5, sent while `"s1"` is
streaming. -/
def reqOtherStream : InstallSnapshotRequest where
  term := 2
  leader_id := 1
  meta := { snapshot_id := "s2", last_log_id := some ⟨1, 9⟩ }
  offset := 5
  data := [7]
  done := false

/-- A non-final chunk of the in-progress stream `"s1"` at the tracked
offset 10. -/
def reqChunk : InstallSnapshotRequest where
  term := 2
  leader_id := 1
  meta := { snapshot_id := "s1", last_log_id := some ⟨3, 10⟩ }
  offset := 10
  data := [1, 2, 3]
  done := false

/-- A final request for snapshot `"s1"` at position `(3, 10)`. -/
def reqSnap : InstallSnapshotRequest where
  term := 2
  leader_id := 1
  meta := { snapshot_id := "s1", last_log_id := some ⟨3, 10⟩ }
  offset := 0
  data := [1]
  done := true

/-- Environment `envOk` whose install reports applied position `(3, 10)` but whose
log purge fails with io-error 13. -/
def envPurgeFail : Env :=
  { envOk with install_res := .ok (some ⟨3, 10⟩), purge_err := some ⟨.purge, 13⟩ }

/-- Environment `envOk` whose sink seek fails with io-error 9. -/
def envSeekFail : Env := { envOk with seek_io := some 9 }

/-- Environment `envOk` whose sink write fails with io-error 9. -/
def envWriteFail : Env := { envOk with write_io := some 9 }

/-- Environment `envOk` whose membership read succeeds but reports no configuration. -/
def envMemNone : Env := { envOk with membership_res := .ok none }

theorem oLt_irrefl (a : Option LogId) : oLt a a = false := by
  cases a <;> simp [oLt, LogId.ltb]

theorem oLt_trans {a b c : Option LogId} (h1 : oLt a b = true)
    (h2 : oLt b c = true) : oLt a c = true := by
  cases a <;> cases b <;> cases c <;>
    simp_all [oLt, LogId.ltb, Bool.or_eq_true, Bool.and_eq_true, beq_iff_eq,
      decide_eq_true_eq] <;> omega

theorem accept_leader_sync_fst_none (env : Env) (core : RaftCore)
    (req : InstallSnapshotRequest) (h : env.save_hard_state_err = none) :
    (accept_leader_sync env core req).1 = none := by
  unfold accept_leader_sync
  simp [h]

theorem accept_leader_sync_snd_frame (env : Env) (core : RaftCore)
    (req : InstallSnapshotRequest) :
    ((accept_leader_sync env core req).2).snapshot_state = core.snapshot_state ∧
    ((accept_leader_sync env core req).2).last_applied = core.last_applied ∧
    ((accept_leader_sync env core req).2).log = core.log := by
  unfold accept_leader_sync
  dsimp only
  repeat' split
  all_goals simp_all

theorem detect_conflict_and_delete_ok_frame (env : Env) (core : RaftCore)
    (last : LogId) (c : RaftCore)
    (h : detect_conflict_and_delete env core last = .ok c) :
    c.current_term = core.current_term ∧ c.last_applied = core.last_applied ∧
    c.committed = core.committed ∧ c.last_log_id = core.last_log_id ∧
    c.snapshot_state = core.snapshot_state ∧ c.membership = core.membership ∧
    c.installed_meta = core.installed_meta := by
  unfold detect_conflict_and_delete at h
  split at h
  · exact absurd h (by simp)
  · split at h
    · rw [Except.ok.injEq] at h
      subst h
      exact ⟨rfl, rfl, rfl, rfl, rfl, rfl, rfl⟩
    · split at h
      · split at h
        · exact absurd h (by simp)
        · rw [Except.ok.injEq] at h
          subst h
          exact ⟨rfl, rfl, rfl, rfl, rfl, rfl, rfl⟩
      · rw [Except.ok.injEq] at h
        subst h
        exact ⟨rfl, rfl, rfl, rfl, rfl, rfl, rfl⟩

theorem detect_conflict_and_delete_ok_exists (env : Env) (core : RaftCore)
    (last : LogId) (h1 : env.try_get_log_entries_err = none)
    (h2 : env.delete_err = none) :
    ∃ c, detect_conflict_and_delete env core last = .ok c := by
  unfold detect_conflict_and_delete
  simp only [h1, h2]
  split
  · exact ⟨core, rfl⟩
  · split
    · exact ⟨_, rfl⟩
    · exact ⟨core, rfl⟩

theorem advance_markers_frame (core : RaftCore) (changes : Option LogId) :
    (advance_markers core changes).snapshot_state = core.snapshot_state ∧
    (advance_markers core changes).membership = core.membership ∧
    (advance_markers core changes).installed_meta = core.installed_meta ∧
    (advance_markers core changes).log = core.log := by
  unfold advance_markers
  dsimp only
  split <;> split <;> simp_all

theorem advance_markers_invariant (core : RaftCore) (changes : Option LogId)
    (pre : oLt core.last_log_id core.committed = false) :
    (advance_markers core changes).last_applied = changes ∧
    oLt (advance_markers core changes).committed
      (advance_markers core changes).last_applied = false ∧
    oLt (advance_markers core changes).last_log_id
      (advance_markers core changes).committed = false := by
  unfold advance_markers
  dsimp only
  by_cases hc : oLt core.committed changes = true
  · by_cases hl : oLt core.last_log_id changes = true
    · simp [hc, hl, oLt_irrefl]
    · simp only [Bool.not_eq_true] at hl
      simp [hc, hl, oLt_irrefl]
  · simp only [Bool.not_eq_true] at hc
    by_cases hl : oLt core.last_log_id changes = true
    · have hlc : oLt changes core.committed = false := by
        cases hx : oLt changes core.committed with
        | false => rfl
        | true =>
          have := oLt_trans hl hx
          rw [pre] at this
          exact absurd this (by simp)
      simp [hc, hl, hlc]
    · simp only [Bool.not_eq_true] at hl
      simp [hc, hl, pre]

theorem finalize_snd_snapshot_state (env : Env) (core : RaftCore)
    (req : InstallSnapshotRequest) :
    ((finalize_snapshot_installation env core req).2).snapshot_state =
      core.snapshot_state := by
  unfold finalize_snapshot_installation
  cases env.shutdown_io with
  | some e => rfl
  | none =>
    dsimp only
    by_cases hg : oLt req.meta.last_log_id core.last_applied = true
    · simp [hg]
    · simp only [Bool.not_eq_true] at hg
      simp only [hg, if_false]
      cases hm : req.meta.last_log_id with
      | none =>
        dsimp only
        cases env.install_res with
        | error e => rfl
        | ok changes =>
          dsimp only
          cases changes with
          | none =>
            dsimp only
            cases env.membership_res with
            | error e => simp [advance_markers_frame]
            | ok mo =>
              cases mo <;> simp [advance_markers_frame]
          | some last =>
            cases env.purge_err with
            | some e => rfl
            | none =>
              dsimp only
              cases env.membership_res with
              | error e => simp [advance_markers_frame]
              | ok mo =>
                cases mo <;> simp [advance_markers_frame]
      | some last =>
        dsimp only
        cases hd : detect_conflict_and_delete env core last with
        | error e => rfl
        | ok core1 =>
          have hfr := detect_conflict_and_delete_ok_frame env core last core1 hd
          dsimp only
          cases env.install_res with
          | error e => simp [hfr.2.2.2.2.1]
          | ok changes =>
            dsimp only
            cases changes with
            | none =>
              dsimp only
              cases env.membership_res with
              | error e => simp [advance_markers_frame, hfr.2.2.2.2.1]
              | ok mo =>
                cases mo <;> simp [advance_markers_frame, hfr.2.2.2.2.1]
            | some l2 =>
              cases env.purge_err with
              | some e => simp [hfr.2.2.2.2.1]
              | none =>
                dsimp only
                cases env.membership_res with
                | error e => simp [advance_markers_frame, hfr.2.2.2.2.1]
                | ok mo =>
                  cases mo <;> simp [advance_markers_frame, hfr.2.2.2.2.1]

/-- C5: for every request with `req.term < current_term`,
`handle_install_snapshot_request` returns `Ok` with a response carrying the
node's `current_term` and an absent `last_applied`, and mutates no node
state: the returned state is the input state, unchanged in every field
(term, leader, role, stream state, log, markers, timer, metrics). -/
theorem C5_stale_term_is_noop (env : Env) (core : RaftCore)
    (req : InstallSnapshotRequest) (h : req.term < core.current_term) :
    handle_install_snapshot_request env core req =
      (.ok ⟨core.current_term, none⟩, core) := by
  unfold handle_install_snapshot_request
  simp [h]

/-- Witness for C5: `core0` is at term 2 and receives a term-1 request. -/
theorem C5_stale_term_is_noop_witness :
    handle_install_snapshot_request envOk core0 { reqSnap with term := 1 } =
      (.ok ⟨core0.current_term, none⟩, core0) :=
  C5_stale_term_is_noop envOk core0 { reqSnap with term := 1 } (by decide)

/-- C1, evaluated at the failing input: with `last_applied = (1,5)` and a
finalization whose `meta.last_log_id` is the equal position `(1,5)` — so
`meta.last_log_id ≤ last_applied` holds — `finalize_snapshot_installation`
does not skip installation: it performs the storage install (recording the
installed metadata), changes node state (`snapshot_last_log_id`, metrics)
and returns success. The guard implemented at line 232 is the strict `<`,
while its own log message (lines 233–237) describes the condition as `<=`,
which is what the claim states. -/
theorem C1_equal_position_still_installs :
    reqEqual.meta.last_log_id = core0.last_applied ∧
    core0.installed_meta = none ∧
    ((finalize_snapshot_installation envOk core0 reqEqual).2).installed_meta =
      some reqEqual.meta ∧
    (finalize_snapshot_installation envOk core0 reqEqual).2 ≠ core0 ∧
    (finalize_snapshot_installation envOk core0 reqEqual).1 = .ok := by
  decide

/-- C2, evaluated at a concrete input: while `Streaming{id="s1", offset=10}`,
a chunk for snapshot `"s2"` at nonzero offset 5 is rejected with
`SnapshotMismatch{expect=("s1",10), got=("s2",5)}` as the claim states — but
the `take()` of line 79 is never undone in this arm, so the `Streaming` state
is NOT preserved: the slot is left empty and the sink is discarded, refuting
"the Streaming state (its id, offset and sink) is preserved". -/
theorem C2_mismatch_drops_stream_counterexample :
    (handle_install_snapshot_request envOk coreStreaming reqOtherStream).1 =
      .err (.snapshotMismatch ⟨"s1", 10⟩ ⟨"s2", 5⟩) ∧
    coreStreaming.snapshot_state = some (.streaming 10 "s1" 3) ∧
    ((handle_install_snapshot_request envOk coreStreaming
        reqOtherStream).2).snapshot_state = none := by
  decide

/-- C2 as amended: for every request arriving while `Streaming{id, offset}`
with a different `snapshot_id` and nonzero offset (and not rejected by the
stale-term check, with hard-state persistence succeeding), the handler
returns `SnapshotMismatch` with `expect = (id, offset)` and
`got = (req.meta.snapshot_id, req.offset)`; however the Streaming state is
taken and discarded — the slot is empty afterwards, so the leader must
restart the stream rather than resume it. -/
theorem C2_mismatch_error_and_dropped_stream (env : Env) (core : RaftCore)
    (req : InstallSnapshotRequest) (off : Nat) (id : String) (snap : Nat)
    (hstream : core.snapshot_state = some (.streaming off id snap))
    (hterm : ¬ req.term < core.current_term)
    (hsave : env.save_hard_state_err = none)
    (hid : req.meta.snapshot_id ≠ id)
    (hoff : req.offset ≠ 0) :
    (handle_install_snapshot_request env core req).1 =
      .err (.snapshotMismatch ⟨id, off⟩ ⟨req.meta.snapshot_id, req.offset⟩) ∧
    ((handle_install_snapshot_request env core req).2).snapshot_state = none := by
  unfold handle_install_snapshot_request
  rw [if_neg hterm]
  rcases hs : accept_leader_sync env core req with ⟨err?, c2⟩
  have h1 : err? = none := by
    have h := accept_leader_sync_fst_none env core req hsave
    rw [hs] at h
    exact h
  have h2 : c2.snapshot_state = some (.streaming off id snap) := by
    have h := (accept_leader_sync_snd_frame env core req).1
    rw [hs] at h
    rw [h, hstream]
  subst h1
  dsimp only
  rw [h2]
  simp [hid, hoff]

/-- Witness for C2's amended theorem at `coreStreaming` and
`reqOtherStream`. -/
theorem C2_mismatch_witness :
    (handle_install_snapshot_request envOk coreStreaming reqOtherStream).1 =
      .err (.snapshotMismatch ⟨"s1", 10⟩
        ⟨reqOtherStream.meta.snapshot_id, reqOtherStream.offset⟩) ∧
    ((handle_install_snapshot_request envOk coreStreaming
        reqOtherStream).2).snapshot_state = none :=
  C2_mismatch_error_and_dropped_stream envOk coreStreaming reqOtherStream
    10 "s1" 3 (by decide) (by decide) rfl (by decide) (by decide)

/-- C3, evaluated at a concrete input: a non-final (`done = false`) chunk of
the in-progress stream `"s1"`, handled by `continue_installing_snapshot` on a
node with `last_applied = (1,5)`, yields a response whose `last_applied` is
`some (1,5)` — populated although this call did not finalize, refuting "the
InstallSnapshotResponse has last_applied absent". -/
theorem C3_continue_not_done_counterexample :
    reqChunk.done = false ∧
    (continue_installing_snapshot envOk core0 reqChunk 10 3).1 =
      .ok ⟨2, some ⟨1, 5⟩⟩ := by
  decide

/-- C3 as amended: a successfully handled `Continue` chunk with
`done = false` stores the advanced `Streaming` state and replies with the
node's CURRENT `last_applied` (lines 193–196 are shared with the finalizing
path) — absent only when the node has applied nothing, not as a "still
streaming" signal; only the `Begin` non-final path (line 151) replies with
an absent `last_applied`. -/
theorem C3_continue_not_done_response (env : Env) (core : RaftCore)
    (req : InstallSnapshotRequest) (off snap : Nat)
    (hdone : req.done = false)
    (hwrite : env.write_io = none)
    (hseek : req.offset = off ∨ env.seek_io = none) :
    continue_installing_snapshot env core req off snap =
      (.ok ⟨core.current_term, core.last_applied⟩,
       { core with snapshot_state := some (.streaming
          (req.offset + req.data.length) req.meta.snapshot_id snap) }) := by
  unfold continue_installing_snapshot
  by_cases ho : (req.offset == off) = true
  · simp [ho, hwrite, hdone, eq_of_beq ho]
  · have hs : env.seek_io = none := by
      rcases hseek with h | h
      · exact absurd (by simp [h]) ho
      · exact h
    simp [ho, hs, hwrite, hdone]

/-- Witness for C3's amended theorem: the chunk `reqChunk` at the tracked
offset 10 with `done = false`. -/
theorem C3_continue_not_done_witness :
    continue_installing_snapshot envOk core0 reqChunk 10 3 =
      (.ok ⟨core0.current_term, core0.last_applied⟩,
       { core0 with snapshot_state := some (.streaming
          (reqChunk.offset + reqChunk.data.length)
          reqChunk.meta.snapshot_id 3) }) :=
  C3_continue_not_done_response envOk core0 reqChunk 10 3 rfl rfl (Or.inl rfl)

/-- C7: during a `Continue` step, a failed seek surfaces the storage error
(verb `Seek`) and restores `Streaming` with the prior tracked offset, id and
sink; a failed write surfaces the storage error (verb `Write`) and restores
`Streaming` with the offset as updated by the successful seek (the request's
offset — equal to the prior offset when no seek was needed), same id and
sink. A retried request can therefore resume the stream. -/
theorem C7_continue_io_failure_preserves_stream (env : Env) (core : RaftCore)
    (req : InstallSnapshotRequest) (off snap : Nat) (e : Nat) :
    (req.offset ≠ off → env.seek_io = some e →
      continue_installing_snapshot env core req off snap =
        (.err (.storageError ⟨.seek, e⟩),
         { core with snapshot_state := some (.streaming
            off req.meta.snapshot_id snap) })) ∧
    ((req.offset = off ∨ env.seek_io = none) → env.write_io = some e →
      continue_installing_snapshot env core req off snap =
        (.err (.storageError ⟨.write, e⟩),
         { core with snapshot_state := some (.streaming
            req.offset req.meta.snapshot_id snap) })) := by
  constructor
  · intro hne hs
    unfold continue_installing_snapshot
    have hb : (req.offset == off) = false := by simp [hne]
    simp [hb, hs]
  · intro hor hw
    unfold continue_installing_snapshot
    by_cases ho : (req.offset == off) = true
    · simp [ho, hw, eq_of_beq ho]
    · have hs : env.seek_io = none := by
        rcases hor with h | h
        · exact absurd (by simp [h]) ho
        · exact h
      simp [ho, hs, hw]

/-- Witness for C7: a seek failure at mismatched offsets (tracked 4,
requested 10) and a write failure at matching offset 10, both on stream
`"s1"` with sink 3. -/
theorem C7_continue_io_failure_witness :
    (continue_installing_snapshot envSeekFail core0 reqChunk 4 3 =
      (.err (.storageError ⟨.seek, 9⟩),
       { core0 with snapshot_state := some (.streaming
          4 reqChunk.meta.snapshot_id 3) })) ∧
    (continue_installing_snapshot envWriteFail core0 reqChunk 10 3 =
      (.err (.storageError ⟨.write, 9⟩),
       { core0 with snapshot_state := some (.streaming
          reqChunk.offset reqChunk.meta.snapshot_id 3) })) :=
  ⟨(C7_continue_io_failure_preserves_stream envSeekFail core0 reqChunk 4 3 9).1
      (by decide) rfl,
   (C7_continue_io_failure_preserves_stream envWriteFail core0 reqChunk 10 3 9).2
      (Or.inl rfl) rfl⟩

/-- C4, evaluated at a concrete input: with a successful atomic install (its
metadata is durably recorded) whose purge then fails, finalization RETURNS
THE PURGE ERROR (the `?` on line 279), and the marker advancement and
membership refresh that follow the purge never run: `last_applied` and
`membership` are left at their prior values — refuting "the failure is
reported but non-fatal ... the marker advancement and membership refresh
still complete". -/
theorem C4_purge_failure_counterexample :
    (finalize_snapshot_installation envPurgeFail core0 reqSnap).1 =
      .err ⟨.purge, 13⟩ ∧
    ((finalize_snapshot_installation envPurgeFail core0 reqSnap).2).installed_meta =
      some reqSnap.meta ∧
    ((finalize_snapshot_installation envPurgeFail core0 reqSnap).2).last_applied =
      core0.last_applied ∧
    ((finalize_snapshot_installation envPurgeFail core0 reqSnap).2).membership =
      core0.membership := by
  decide

/-- C4 as amended: if the purge of applied log entries after a successful
atomic install fails, the error propagates out of
`finalize_snapshot_installation` (fatal, like every other error of the
routine, per its own doc comment); the storage-level install itself is not
rolled back (the installed metadata remains recorded), but the marker
advancement (`last_applied`, `committed`, `last_log_id`) and the membership
refresh are skipped. -/
theorem C4_purge_failure_propagates (env : Env) (core : RaftCore)
    (req : InstallSnapshotRequest) (l : LogId) (e : StorageErr)
    (hshut : env.shutdown_io = none)
    (hguard : oLt req.meta.last_log_id core.last_applied = false)
    (htry : env.try_get_log_entries_err = none)
    (hdel : env.delete_err = none)
    (hinst : env.install_res = .ok (some l))
    (hpurge : env.purge_err = some e) :
    (finalize_snapshot_installation env core req).1 = .err e ∧
    ((finalize_snapshot_installation env core req).2).installed_meta =
      some req.meta ∧
    ((finalize_snapshot_installation env core req).2).last_applied =
      core.last_applied ∧
    ((finalize_snapshot_installation env core req).2).committed =
      core.committed ∧
    ((finalize_snapshot_installation env core req).2).last_log_id =
      core.last_log_id ∧
    ((finalize_snapshot_installation env core req).2).membership =
      core.membership := by
  unfold finalize_snapshot_installation
  simp only [hshut, hguard, Bool.false_eq_true, if_false]
  cases hm : req.meta.last_log_id with
  | none =>
    simp [hinst, hpurge]
  | some last =>
    obtain ⟨c1, hc1⟩ :=
      detect_conflict_and_delete_ok_exists env core last htry hdel
    have hfr := detect_conflict_and_delete_ok_frame env core last c1 hc1
    simp [hc1, hinst, hpurge, hfr.2.1, hfr.2.2.1, hfr.2.2.2.1,
      hfr.2.2.2.2.2.1]

/-- Witness for C4's amended theorem at `envPurgeFail`. -/
theorem C4_purge_failure_witness :
    (finalize_snapshot_installation envPurgeFail core0 reqSnap).1 =
      .err ⟨.purge, 13⟩ ∧
    ((finalize_snapshot_installation envPurgeFail core0 reqSnap).2).installed_meta =
      some reqSnap.meta ∧
    ((finalize_snapshot_installation envPurgeFail core0 reqSnap).2).last_applied =
      core0.last_applied ∧
    ((finalize_snapshot_installation envPurgeFail core0 reqSnap).2).committed =
      core0.committed ∧
    ((finalize_snapshot_installation envPurgeFail core0 reqSnap).2).last_log_id =
      core0.last_log_id ∧
    ((finalize_snapshot_installation envPurgeFail core0 reqSnap).2).membership =
      core0.membership :=
  C4_purge_failure_propagates envPurgeFail core0 reqSnap ⟨3, 10⟩ ⟨.purge, 13⟩
    rfl (by decide) rfl rfl rfl rfl

/-- When the sink shutdown, the staleness guard, conflict handling, the
install and the purge all pass, finalization reaches the membership phase:
there is an intermediate state `core3` agreeing with the input on the
markers and membership, such that the result is determined by
`env.membership_res` applied after `advance_markers`. -/
theorem finalize_membership_phase (env : Env) (core : RaftCore)
    (req : InstallSnapshotRequest) (la : Option LogId)
    (hshut : env.shutdown_io = none)
    (hguard : oLt req.meta.last_log_id core.last_applied = false)
    (htry : env.try_get_log_entries_err = none)
    (hdel : env.delete_err = none)
    (hinst : env.install_res = .ok la)
    (hpurge : env.purge_err = none) :
    ∃ core3,
      core3.committed = core.committed ∧
      core3.last_log_id = core.last_log_id ∧
      core3.last_applied = core.last_applied ∧
      core3.membership = core.membership ∧
      core3.installed_meta = some req.meta ∧
      core3.snapshot_state = core.snapshot_state ∧
      finalize_snapshot_installation env core req =
        (match env.membership_res with
         | .error e => (.err e, advance_markers core3 la)
         | .ok none => (.panicked, advance_markers core3 la)
         | .ok (some m) =>
           (.ok, { advance_markers core3 la with
                   membership := m,
                   snapshot_last_log_id := (advance_markers core3 la).last_applied,
                   metrics_reports :=
                     (advance_markers core3 la).metrics_reports + 1 })) := by
  unfold finalize_snapshot_installation
  simp only [hshut, hguard, Bool.false_eq_true, if_false]
  cases hm : req.meta.last_log_id with
  | none =>
    cases la with
    | none =>
      refine ⟨{ core with installed_meta := some req.meta }, rfl, rfl, rfl, rfl,
        rfl, rfl, ?_⟩
      simp only [hinst]
    | some l =>
      refine ⟨{ core with
          installed_meta := some req.meta,
          log := core.log.filter (fun ent => l.index < ent.index) },
        rfl, rfl, rfl, rfl, rfl, rfl, ?_⟩
      simp only [hinst, hpurge]
  | some last =>
    obtain ⟨c1, hc1⟩ :=
      detect_conflict_and_delete_ok_exists env core last htry hdel
    have hfr := detect_conflict_and_delete_ok_frame env core last c1 hc1
    cases la with
    | none =>
      refine ⟨{ c1 with installed_meta := some req.meta },
        hfr.2.2.1, hfr.2.2.2.1, hfr.2.1, hfr.2.2.2.2.2.1, rfl,
        hfr.2.2.2.2.1, ?_⟩
      simp only [hc1, hinst]
    | some l =>
      refine ⟨{ c1 with
          installed_meta := some req.meta,
          log := c1.log.filter (fun ent => l.index < ent.index) },
        hfr.2.2.1, hfr.2.2.2.1, hfr.2.1, hfr.2.2.2.2.2.1, rfl,
        hfr.2.2.2.2.1, ?_⟩
      simp only [hc1, hinst, hpurge]

/-- C8: after every finalization that actually installs (the staleness guard
does not fire; sink close, conflict handling, install, purge and membership
read succeed), `last_applied` is set to the position reported by the storage
install, `committed` is raised to it if it was behind, and `last_log_id` is
raised to it if it was behind; given the (spec-)invariant
`committed ≤ last_log_id` on entry, the final state satisfies
`last_applied ≤ committed ≤ last_log_id` (stated as the falsity of the
strict `<` of the source in the opposite direction, a total order). -/
theorem C8_markers_and_invariant_after_install (env : Env) (core : RaftCore)
    (req : InstallSnapshotRequest) (la : Option LogId) (m : Nat)
    (hshut : env.shutdown_io = none)
    (hguard : oLt req.meta.last_log_id core.last_applied = false)
    (htry : env.try_get_log_entries_err = none)
    (hdel : env.delete_err = none)
    (hinst : env.install_res = .ok la)
    (hpurge : env.purge_err = none)
    (hmem : env.membership_res = .ok (some m))
    (pre : oLt core.last_log_id core.committed = false) :
    (finalize_snapshot_installation env core req).1 = .ok ∧
    ((finalize_snapshot_installation env core req).2).last_applied = la ∧
    oLt ((finalize_snapshot_installation env core req).2).committed
      ((finalize_snapshot_installation env core req).2).last_applied = false ∧
    oLt ((finalize_snapshot_installation env core req).2).last_log_id
      ((finalize_snapshot_installation env core req).2).committed = false := by
  obtain ⟨c3, hc, hl, _, _, _, _, heq⟩ :=
    finalize_membership_phase env core req la hshut hguard htry hdel hinst hpurge
  rw [heq, hmem]
  have pre3 : oLt c3.last_log_id c3.committed = false := by
    rw [hl, hc]
    exact pre
  have inv := advance_markers_invariant c3 la pre3
  exact ⟨rfl, inv.1, inv.2.1, inv.2.2⟩

/-- Witness for C8: `core0` (markers all `(1,5)`) finalizing `reqSnap`,
with the install reporting `(1,5)` under `envOk`. -/
theorem C8_markers_witness :
    (finalize_snapshot_installation envOk core0 reqSnap).1 = .ok ∧
    ((finalize_snapshot_installation envOk core0 reqSnap).2).last_applied =
      some ⟨1, 5⟩ ∧
    oLt ((finalize_snapshot_installation envOk core0 reqSnap).2).committed
      ((finalize_snapshot_installation envOk core0 reqSnap).2).last_applied =
      false ∧
    oLt ((finalize_snapshot_installation envOk core0 reqSnap).2).last_log_id
      ((finalize_snapshot_installation envOk core0 reqSnap).2).committed =
      false :=
  C8_markers_and_invariant_after_install envOk core0 reqSnap (some ⟨1, 5⟩) 7
    rfl (by decide) rfl rfl rfl rfl rfl (by decide)

/-- C9: once the atomic install (and purge) succeeded, a membership read
returning no configuration makes `finalize_snapshot_installation` fail the
`assert!` of line 296 — the outcome is the panic, never an `Err` return —
while a present configuration `m` is adopted as the node's current
membership and finalization succeeds. -/
theorem C9_membership_assert_or_adopt (env : Env) (core : RaftCore)
    (req : InstallSnapshotRequest) (la : Option LogId)
    (hshut : env.shutdown_io = none)
    (hguard : oLt req.meta.last_log_id core.last_applied = false)
    (htry : env.try_get_log_entries_err = none)
    (hdel : env.delete_err = none)
    (hinst : env.install_res = .ok la)
    (hpurge : env.purge_err = none) :
    (env.membership_res = .ok none →
      (finalize_snapshot_installation env core req).1 = .panicked ∧
      ∀ e, (finalize_snapshot_installation env core req).1 ≠ .err e) ∧
    (∀ m, env.membership_res = .ok (some m) →
      (finalize_snapshot_installation env core req).1 = .ok ∧
      ((finalize_snapshot_installation env core req).2).membership = m) := by
  obtain ⟨c3, _, _, _, _, _, _, heq⟩ :=
    finalize_membership_phase env core req la hshut hguard htry hdel hinst hpurge
  constructor
  · intro hnone
    rw [heq, hnone]
    exact ⟨rfl, fun e h => by simp at h⟩
  · intro m hm
    rw [heq, hm]
    exact ⟨rfl, rfl⟩

/-- Witness for C9: under `envMemNone` the membership read returns no
configuration and finalization panics; under `envOk` configuration 7 is
read and adopted. -/
theorem C9_membership_witness :
    (finalize_snapshot_installation envMemNone core0 reqSnap).1 = .panicked ∧
    ((finalize_snapshot_installation envOk core0 reqSnap).2).membership = 7 :=
  ⟨((C9_membership_assert_or_adopt envMemNone core0 reqSnap (some ⟨1, 5⟩)
      rfl (by decide) rfl rfl rfl rfl).1 rfl).1,
   ((C9_membership_assert_or_adopt envOk core0 reqSnap (some ⟨1, 5⟩)
      rfl (by decide) rfl rfl rfl rfl).2 7 rfl).2⟩

/-- Running `begin_installing_snapshot` on a final (`done`) chunk that returns `Ok`
leaves the snapshot slot exactly as it received it (finalization never
touches the slot, and the non-final storing branch is excluded), and the
response carries the resulting state's `last_applied`. -/
theorem begin_done_ok (env : Env) (core : RaftCore)
    (req : InstallSnapshotRequest) (resp : InstallSnapshotResponse)
    (c' : RaftCore) (hdone : req.done = true)
    (h : begin_installing_snapshot env core req = (.ok resp, c')) :
    c'.snapshot_state = core.snapshot_state ∧
    resp.last_applied = c'.last_applied := by
  unfold begin_installing_snapshot at h
  rw [hdone] at h
  split at h
  · simp at h
  · split at h
    · simp at h
    · split at h
      · simp at h
      · rw [if_pos rfl] at h
        split at h
        · rename_i core1 heq
          rw [Prod.mk.injEq] at h
          obtain ⟨h1, h2⟩ := h
          subst h2
          injection h1 with h1
          have hstate := finalize_snd_snapshot_state env core req
          rw [heq] at hstate
          exact ⟨hstate, by rw [← h1]⟩
        · simp at h
        · simp at h

/-- Running `continue_installing_snapshot` on a final (`done`) chunk that returns
`Ok` leaves the snapshot slot exactly as it received it, and the response
carries the resulting state's `last_applied`. -/
theorem continue_done_ok (env : Env) (core : RaftCore)
    (req : InstallSnapshotRequest) (off snap : Nat)
    (resp : InstallSnapshotResponse) (c' : RaftCore)
    (hdone : req.done = true)
    (h : continue_installing_snapshot env core req off snap = (.ok resp, c')) :
    c'.snapshot_state = core.snapshot_state ∧
    resp.last_applied = c'.last_applied := by
  unfold continue_installing_snapshot at h
  rw [hdone] at h
  by_cases ho : (req.offset == off) = true
  · simp only [ho, reduceIte] at h
    split at h
    · simp at h
    · split at h
      · rename_i core1 heq
        rw [Prod.mk.injEq] at h
        obtain ⟨h1, h2⟩ := h
        subst h2
        injection h1 with h1
        have hstate := finalize_snd_snapshot_state env core req
        rw [heq] at hstate
        exact ⟨hstate, by rw [← h1]⟩
      · simp at h
      · simp at h
  · have ho2 : (req.offset == off) = false := by simpa using ho
    simp only [ho2, reduceIte] at h
    split at h
    · simp at h
    · split at h
      · simp at h
      · split at h
        · rename_i core1 heq
          rw [Prod.mk.injEq] at h
          obtain ⟨h1, h2⟩ := h
          subst h2
          injection h1 with h1
          have hstate := finalize_snd_snapshot_state env core req
          rw [heq] at hstate
          exact ⟨hstate, by rw [← h1]⟩
        · simp at h
        · simp at h

/-- C10, evaluated at a concrete input: a `done = true` request whose term
(1) is below the node's current term (2), while the node is
`Streaming{id="s1", offset=10}`, is answered `Ok` by the stale-term early
return — and the snapshot stream slot is NOT `Idle` afterwards (the
`Streaming` state is untouched), refuting the claim for such requests.
(The response also reports `last_applied` as absent, not the node's
current value.) -/
theorem C10_stale_term_retains_stream_counterexample :
    ({ reqSnap with term := 1 }).done = true ∧
    handle_install_snapshot_request envOk coreStreaming
      { reqSnap with term := 1 } =
      (.ok ⟨2, none⟩, coreStreaming) ∧
    coreStreaming.snapshot_state ≠ none := by
  decide

/-- C10 as amended: for every request with `done = true` that passes the
stale-term check (`req.term ≥ current_term`) and for which the handler
returns `Ok`, the snapshot stream slot is empty (`Idle`) afterward —
including the case where finalization skipped installation because the
snapshot was stale — and the response carries the node's (resulting)
`last_applied`. A stale-term `done` request is answered `Ok` without
touching the slot and with `last_applied` absent. -/
theorem C10_done_ok_clears_stream (env : Env) (core : RaftCore)
    (req : InstallSnapshotRequest) (resp : InstallSnapshotResponse)
    (c' : RaftCore)
    (hdone : req.done = true)
    (hterm : ¬ req.term < core.current_term)
    (hok : handle_install_snapshot_request env core req = (.ok resp, c')) :
    c'.snapshot_state = none ∧ resp.last_applied = c'.last_applied := by
  unfold handle_install_snapshot_request at hok
  rw [if_neg hterm] at hok
  rcases hs : accept_leader_sync env core req with ⟨err?, c2⟩
  rw [hs] at hok
  cases err? with
  | some e => simp at hok
  | none =>
    dsimp only at hok
    cases hss : c2.snapshot_state with
    | none =>
      rw [hss] at hok
      have hb := begin_done_ok env c2 req resp c' hdone hok
      exact ⟨by rw [hb.1, hss], hb.2⟩
    | some ss =>
      rw [hss] at hok
      cases ss with
      | snapshotting hdl =>
        dsimp only at hok
        have hb := begin_done_ok env { c2 with snapshot_state := none } req
          resp c' hdone hok
        exact ⟨by simpa using hb.1, hb.2⟩
      | streaming off id snap =>
        dsimp only at hok
        by_cases hid : (req.meta.snapshot_id == id) = true
        · rw [if_pos hid] at hok
          have hb := continue_done_ok env { c2 with snapshot_state := none }
            req off snap resp c' hdone hok
          exact ⟨by simpa using hb.1, hb.2⟩
        · rw [if_neg hid] at hok
          by_cases hoff : (req.offset == 0) = true
          · rw [if_pos hoff] at hok
            have hb := begin_done_ok env { c2 with snapshot_state := none }
              req resp c' hdone hok
            exact ⟨by simpa using hb.1, hb.2⟩
          · rw [if_neg hoff] at hok
            simp at hok

/-- Witness for C10's amended theorem: `core0` (Idle slot) handling the
final request `reqSnap` under `envOk`. -/
theorem C10_done_ok_witness :
    (({ core0 with
        snapshot_last_log_id := some ⟨1, 5⟩,
        membership := 7,
        installed_meta := some reqSnap.meta,
        election_timeout_updates := 1,
        metrics_reports := 1 } : RaftCore).snapshot_state = none) ∧
    (⟨2, some ⟨1, 5⟩⟩ : InstallSnapshotResponse).last_applied =
      ({ core0 with
        snapshot_last_log_id := some ⟨1, 5⟩,
        membership := 7,
        installed_meta := some reqSnap.meta,
        election_timeout_updates := 1,
        metrics_reports := 1 } : RaftCore).last_applied :=
  C10_done_ok_clears_stream envOk core0 reqSnap ⟨2, some ⟨1, 5⟩⟩ _
    rfl (by decide) (by decide)

/-- C6, evaluated at a concrete input: node with `last_applied = (1,5)` and
`committed = (1,8)`; the entry at index 10 has term 4 but the snapshot says
`(3,10)`, so conflict deletion runs from `last_applied.index + 1 = 6`
onward. Entry `(1,7)` — a committed entry, since its index 7 is at most
`committed.index = 8` — is in the log before and deleted after, refuting
the parenthetical "applied/committed entries are never deleted". -/
theorem C6_committed_entry_deleted_counterexample :
    conflict_matches coreC6.log ⟨3, 10⟩ = false ∧
    coreC6.committed = some ⟨1, 8⟩ ∧
    LogId.mk 1 7 ∈ coreC6.log ∧
    detect_conflict_and_delete envOk coreC6 ⟨3, 10⟩ =
      .ok { coreC6 with log := [] } ∧
    ¬ LogId.mk 1 7 ∈ ([] : List LogId) := by
  refine ⟨by decide, by decide, by decide, ?_, by decide⟩
  rfl

/-- C6 as amended: during finalization with `meta.last_log_id = last`
present, if the local log has no entry at `last.index` or that entry
differs from `last` (`conflict_matches` is false), then, when the log id
`n` immediately after `last_applied` can be determined, every local log
entry from index `n.index = last_applied.index + 1` onward is deleted —
so applied entries (index ≤ `last_applied.index`) are never deleted,
though committed-but-not-yet-applied entries may be; when that next log id
cannot be determined, deletion is skipped. -/
theorem C6_conflict_deletion (env : Env) (core : RaftCore) (last : LogId)
    (htry : env.try_get_log_entries_err = none)
    (hdel : env.delete_err = none)
    (hmis : conflict_matches core.log last = false) :
    (∀ n, get_log_id core.log (next_index core.last_applied) = some n →
      n.index = next_index core.last_applied ∧
      detect_conflict_and_delete env core last =
        .ok { core with
          log := core.log.filter (fun ent => ent.index < n.index) }) ∧
    (get_log_id core.log (next_index core.last_applied) = none →
      detect_conflict_and_delete env core last = .ok core) := by
  constructor
  · intro n hn
    have hidx : n.index = next_index core.last_applied := by
      unfold get_log_id at hn
      have hp := List.find?_some hn
      simpa using hp
    refine ⟨hidx, ?_⟩
    unfold detect_conflict_and_delete
    simp only [htry, hdel, hmis, Bool.false_eq_true, if_false, hn]
  · intro h0
    unfold detect_conflict_and_delete
    simp only [htry, hdel, hmis, Bool.false_eq_true, if_false, h0]

/-- Witness for C6's amended theorem at `coreC6`: the log id after
`last_applied = (1,5)` is the entry `(1,6)` at index 6; conflict deletion
removes every entry of index at least 6. -/
theorem C6_conflict_deletion_witness :
    (LogId.mk 1 6).index = next_index coreC6.last_applied ∧
    detect_conflict_and_delete envOk coreC6 ⟨3, 10⟩ =
      .ok { coreC6 with
        log := coreC6.log.filter (fun ent => ent.index < (LogId.mk 1 6).index) } :=
  (C6_conflict_deletion envOk coreC6 ⟨3, 10⟩ rfl rfl (by decide)).1
    ⟨1, 6⟩ (by decide)

end InstallSnapshot
